import Mathlib

/-!
Verification of the span-based anonymization engine in `anonymize.py`
(repository AnonymizationPipeline).

The Python code is shallowly embedded: strings are Lean `String`s, Python
`int` span coordinates are `Int`, Python slice expressions are modelled by
`pyIdx`/`pySliceGet`/`pyTake`/`pyDropFrom` with Python clamping
semantics, the global `random` module is modelled by an injected stream
`rng : Nat → Nat` (each call site reads a fixed position of the stream and
reduces it modulo the size of the sampled population), and a Python
expression that can raise (`None` flowing into `len`, `text[1]` on a short
string, indexing an empty list, pandas `sample` on an empty frame) is
modelled with `Option`, `none` standing for the raised exception.
-/

/-! ## Python primitives -/

/-- Python slice-index semantics for step 1: a negative index counts from
the end and the result is clamped into `[0, n]`. -/
def pyIdx (n : Nat) (i : Int) : Nat :=
  if i < 0 then (i + n).toNat else min i.toNat n

/-- Python `s[a:b]` (step 1). -/
def pySliceGet (s : String) (a b : Int) : String :=
  let a' := pyIdx s.length a
  let b' := pyIdx s.length b
  ⟨(s.data.drop a').take (b' - a')⟩

/-- Python `s[:a]`. -/
def pyTake (s : String) (a : Int) : String :=
  ⟨s.data.take (pyIdx s.length a)⟩

/-- Python `s[a:]`. -/
def pyDropFrom (s : String) (a : Int) : String :=
  ⟨s.data.drop (pyIdx s.length a)⟩

/-- Python `list.get` with an out-of-range access modelled as `none`
(Python raises `IndexError`); also models `random.choice(l)`, which
raises on an empty list, via `pyChoose`. -/
def pyGet (l : List α) (i : Nat) : Option α := l.get? i

/-- Models `random.choice(l)` driven by one draw `r` of the injected random
stream: an in-range index is obtained by reducing modulo the length;
the empty list gives `none` (Python raises). -/
def pyChoose (l : List α) (r : Nat) : Option α :=
  l.get? (r % l.length)

/-- Models `random.randint(a, b)` driven by one draw `r`: uniform on `[a, b]`. -/
def pyRandint (r a b : Nat) : Nat :=
  a + r % (b - a + 1)

/-- Defaulted list indexing used only where the index is provably in
range. -/
def listGetD (l : List α) (i : Nat) (d : α) : α := l.getD i d

/-! ## Spans -/

/-- Embeds `Span = {start: int, end: int, label: string}` from `meta.Span`;
the Python key `end` is spelled `stop` because `end` is a Lean keyword. -/
structure Span where
  start : Int
  stop : Int
  label : String
  deriving Repr, DecidableEq

/-! ## The offset-tracking driver `anonymizeSpans` -/

/-- The loop body of `anonymizeSpans`, with the running `offset` made
explicit.  Mirrors `anonymize.py` lines 20–30: the span is shifted by the
current offset, the strategy is invoked on the shifted span and the
current document, the returned text is spliced over the shifted range,
and the offset grows by `new_span.end - span.end`, with `span.end` the
end of the shifted span. -/
def anonymizeSpansAux (anonymizer : Span → String → Span × String) :
    Int → List Span → String → List Span × String
  | _, [], text => ([], text)
  | offset, span :: rest, text =>
    let span' : Span := { span with start := span.start + offset, stop := span.stop + offset }
    let res := anonymizer span' text
    let text' := pyTake text span'.start ++ res.2 ++ pyDropFrom text span'.stop
    let offset' := offset + (res.1.stop - span'.stop)
    let tail := anonymizeSpansAux anonymizer offset' rest text'
    (res.1 :: tail.1, tail.2)

/-- Embeds `anonymizeSpans(anonymizer, spans, text)` (`anonymize.py` 20–30). -/
def anonymizeSpans (anonymizer : Span → String → Span × String)
    (spans : List Span) (text : String) : List Span × String :=
  anonymizeSpansAux anonymizer 0 spans text

/-! ## The character-class shuffler -/

def lowers : String := "abcdefghijklmnopqrstuvwxyz"
def uppers : String := "ABCDEFGHIJKLMNOPQRSTUVWXYZ"
def numbers : String := "0123456789"

/-- One character of the shuffling loop shared by module-level
`anonymize` and `SimpleAnonym.anonymize` (`anonymize.py` 37–46), driven
by one draw `r`: a numeric character becomes `random.choice(numbers)`,
an alphabetic one `random.choice(uppers)` or `random.choice(lowers)`
according to its case, anything else is kept.  The concrete alphabets are
nonempty, so `random.choice` cannot fail here and the draw is read off
with a default. -/
def shuffleChar (r : Nat) (c : Char) : Char :=
  if c.isDigit then listGetD numbers.data (r % numbers.length) c
  else if c.isAlpha then
    if c.isUpper then listGetD uppers.data (r % uppers.length) c
    else listGetD lowers.data (r % lowers.length) c
  else c

/-- The shuffling loop over the spanned substring, consuming one stream
position per character. -/
def shuffleChars (rng : Nat → Nat) : Nat → List Char → List Char
  | _, [] => []
  | i, c :: cs => shuffleChar (rng i) c :: shuffleChars rng (i + 1) cs

/-- Module-level `anonymize(span, text)` (`anonymize.py` 33–47): shuffles
`text[start:end]` and returns `(span.copy(), text[:start] + new + text[end:])`
— the *whole rewritten document*, with the span unchanged. -/
def anonymizeFree (rng : Nat → Nat) (span : Span) (text : String) :
    Span × String :=
  let newText : String := ⟨shuffleChars rng 0 (pySliceGet text span.start span.stop).data⟩
  (span, pyTake text span.start ++ newText ++ pyDropFrom text span.stop)

namespace SimpleAnonym

/-- Embeds `SimpleAnonym.anonymize` (`anonymize.py` 65–79): identical body to
the module-level `anonymize`. -/
def anonymize (rng : Nat → Nat) (span : Span) (text : String) :
    Span × String :=
  let newText : String := ⟨shuffleChars rng 0 (pySliceGet text span.start span.stop).data⟩
  (span, pyTake text span.start ++ newText ++ pyDropFrom text span.stop)

end SimpleAnonym

/-! ## Python string helpers for `AllAnonym`

Casing is modelled on ASCII plus the accented letters occurring in the
gazetteer keywords; this agrees with the Python `str.lower`, `str.upper`,
`str.capitalize` and `str.isupper` on every string these claims touch. -/

def pyCharLower (c : Char) : Char :=
  if c = 'Á' then 'á' else if c = 'É' then 'é' else if c = 'Í' then 'í'
  else if c = 'Ó' then 'ó' else if c = 'Ú' then 'ú' else if c = 'À' then 'à'
  else if c = 'È' then 'è' else if c = 'Ò' then 'ò' else if c = 'Ç' then 'ç'
  else if c = 'Ü' then 'ü' else if c = 'Ï' then 'ï' else c.toLower

def pyCharUpper (c : Char) : Char :=
  if c = 'á' then 'Á' else if c = 'é' then 'É' else if c = 'í' then 'Í'
  else if c = 'ó' then 'Ó' else if c = 'ú' then 'Ú' else if c = 'à' then 'À'
  else if c = 'è' then 'È' else if c = 'ò' then 'Ò' else if c = 'ç' then 'Ç'
  else if c = 'ü' then 'Ü' else if c = 'ï' then 'Ï' else c.toUpper

/-- Python `s.lower()`. -/
def pyLower (s : String) : String := ⟨s.data.map pyCharLower⟩

/-- Python `s.upper()`. -/
def pyUpperStr (s : String) : String := ⟨s.data.map pyCharUpper⟩

/-- Python `s.capitalize()`: first character upper-cased, the rest
lower-cased. -/
def pyCapitalize (s : String) : String :=
  match s.data with
  | [] => ""
  | c :: cs => ⟨pyCharUpper c :: cs.map pyCharLower⟩

/-- Predicate `listStartsWith l p`: `l` begins with `p`. -/
def listStartsWith [BEq α] : List α → List α → Bool
  | _, [] => true
  | [], _ :: _ => false
  | a :: as, b :: bs => a == b && listStartsWith as bs

/-- Predicate `listHasSub l n`: `n` occurs contiguously inside `l`. -/
def listHasSub [BEq α] : List α → List α → Bool
  | [], needle => needle.isEmpty
  | a :: as, needle => listStartsWith (a :: as) needle || listHasSub as needle

/-- Python substring membership `needle in hay`. -/
def strHasSub (hay needle : String) : Bool := listHasSub hay.data needle.data

/-- One step of Python `s.split()` (whitespace split, empties dropped),
as a right fold: whitespace closes the current word, any other character
is prepended to it. -/
def splitStep (c : Char) (acc : List (List Char)) : List (List Char) :=
  if c.isWhitespace then [] :: acc
  else
    match acc with
    | [] => [[c]]
    | w :: ws => (c :: w) :: ws

/-- Python `s.split()`: split on runs of whitespace, discarding empty
pieces. -/
def pySplit (s : String) : List String :=
  ((s.data.foldr splitStep [[]]).filter (fun w => !w.isEmpty)).map
    (fun w => (⟨w⟩ : String))

/-! ## `AllAnonym`: gazetteer environment and strategies

`AllAnonym.__init__` (`anonymize.py` 83–117) loads four read-only
resources from disk; they are modelled as an explicit environment
record. -/

/-- One row of `nomenclator.csv` (columns `TIPUS_VIA`, `PARTICULES`,
`NOM`). -/
structure StreetRow where
  tipusVia : String
  particules : String
  nom : String
  deriving Repr, DecidableEq

/-- The gazetteer resources loaded by `AllAnonym.__init__`. -/
structure AllAnonymEnv where
  nameList : List String
  surnameList : List String
  nomenclator : List StreetRow
  barrios : List String

/-- Models `pandas.DataFrame.sample(1).iloc[0]` driven by one draw `r`:
uniform row choice, `none` on an empty frame (pandas raises). -/
def pySampleOne (l : List α) (r : Nat) : Option α := pyChoose l r

/-- Models `pandas.DataFrame.sample(2)` driven by draws `r1`, `r2`: two
distinct uniform rows, `none` when fewer than two rows exist (pandas
raises). -/
def pySampleTwo (l : List α) (r1 r2 : Nat) : Option (α × α) :=
  if l.length < 2 then none
  else
    let i := r1 % l.length
    let j0 := r2 % (l.length - 1)
    let j := if j0 < i then j0 else j0 + 1
    match l.get? i, l.get? j with
    | some a, some b => some (a, b)
    | _, _ => none

namespace AllAnonym

/-- Embeds `_format_string(text, replacement)` (`anonymize.py` 214–222).
`text[0]` on an empty string and `text[1]` on a single-character string
raise `IndexError`, modelled as `none`; note that `text[1]` is only
reached when `text[0]` is uppercase. -/
def formatString (text replacement : String) : Option String :=
  match text.data with
  | [] => none
  | c0 :: rest =>
    if c0.isUpper then
      match rest with
      | [] => none
      | c1 :: _ =>
        if c1.isUpper then some (pyUpperStr replacement)
        else some (pyCapitalize replacement)
    else some replacement

/-- Embeds `generateName` (`anonymize.py` 224–226): sample a name, then format
it with the casing of `text`; `r` is the draw for `random.choice`. -/
def generateName (env : AllAnonymEnv) (r : Nat) (text : String) :
    Option String :=
  (pyChoose env.nameList r).bind (fun name => formatString text name)

/-- Embeds `generateSurname` (`anonymize.py` 228–230). -/
def generateSurname (env : AllAnonymEnv) (r : Nat) (text : String) :
    Option String :=
  (pyChoose env.surnameList r).bind (fun surname => formatString text surname)

/-- Embeds `_replacePER` (`anonymize.py` 128–136): split on whitespace; one
token → `generateName` on the *full* `text`; otherwise `generateName` on
token 1 and `generateSurname` on token 2 joined by a space (an empty
split reaches `subwords[0]`, an `IndexError`). -/
def replacePER (env : AllAnonymEnv) (rng : Nat → Nat) (text : String) :
    Option String :=
  let subwords := pySplit text
  if subwords.length == 1 then generateName env (rng 0) text
  else
    match pyGet subwords 0, pyGet subwords 1 with
    | some w0, some w1 =>
      (generateName env (rng 0) w0).bind (fun name =>
        (generateSurname env (rng 1) w1).bind (fun surname =>
          some (name ++ " " ++ surname)))
    | _, _ => none

def streetTypes : List String := ["carrer", "via", "carreró", "avinguda", "passeig"]

def parkTypes : List String := ["jardí", "placeta", "plaça", "jardins", "parc"]

def locDescriptors : List String := ["carrer", "calle", "vía", "via", "carrero", "carreró"]

def districtWords : List String := ["districte", "district", "distrito", "barrio", "barri", "zona"]

def parkWords : List String := ["park", "parque", "jardín", "parc", "plaça"]

def conjunctionWords : List String := ["amb", "i", "con", "y", "cantonada"]

/-- The `streets` frame of `_replaceLOC`: rows whose `TIPUS_VIA` is a
street type. -/
def streetsOf (env : AllAnonymEnv) : List StreetRow :=
  env.nomenclator.filter (fun row => streetTypes.contains row.tipusVia)

/-- The `parks` frame of `_replaceLOC`. -/
def parksOf (env : AllAnonymEnv) : List StreetRow :=
  env.nomenclator.filter (fun row => parkTypes.contains row.tipusVia)

/-- Builds the address piece "TIPUS_VIA PARTICULES NOM" of a row. -/
def mkStreetAddr (row : StreetRow) : String :=
  row.tipusVia ++ " " ++ row.particules ++ " " ++ row.nom

/-- Embeds `_replaceLOC` (`anonymize.py` 138–176): five branches over the
lower-cased text — digit → full street address (with or without the
way-type according to the descriptor keywords), intersection marker →
two streets with a sampled conjunction, district keyword → a sampled
neighbourhood, park keyword → a park, otherwise a single street. -/
def replaceLOC (env : AllAnonymEnv) (rng : Nat → Nat) (text : String) :
    Option String :=
  let lower := pyLower text
  let streets := streetsOf env
  let parks := parksOf env
  if lower.data.any Char.isDigit then
    match pySampleOne streets (rng 0) with
    | none => none
    | some sel =>
      if locDescriptors.any (fun x => strHasSub lower x) then
        some (mkStreetAddr sel ++ " " ++ toString (pyRandint (rng 1) 1 100))
      else
        some (sel.nom ++ " " ++ toString (pyRandint (rng 1) 1 100))
  else if strHasSub lower " amb " || strHasSub lower " i " ||
      strHasSub lower " cantonada " then
    match pySampleTwo streets (rng 0) (rng 1) with
    | none => none
    | some (st1, st2) =>
      match pyChoose conjunctionWords (rng 2) with
      | none => none
      | some conj => some (mkStreetAddr st1 ++ " " ++ conj ++ " " ++ mkStreetAddr st2)
  else if districtWords.any (fun x => strHasSub lower x) then
    pyChoose env.barrios (rng 0)
  else if parkWords.any (fun x => strHasSub lower x) then
    (pySampleOne parks (rng 0)).map mkStreetAddr
  else
    (pySampleOne streets (rng 0)).map mkStreetAddr

/-- Embeds `_replaceDefault` (`anonymize.py` 206–207): the body is `pass`, so
the call returns Python `None`; every use site then feeds it to `len`,
raising `TypeError`, hence `none`. -/
def replaceDefault (_text : String) : Option String := none

/-- Embeds `_replaceDelete` (`anonymize.py` 209–210). -/
def replaceDelete (_text : String) : Option String := some ""

def replaceZIP (text : String) : Option String := replaceDefault text

def replaceID (text : String) : Option String := replaceDefault text

def replaceDATE (text : String) : Option String := replaceDefault text

def replaceFINANCIAL (text : String) : Option String := replaceDefault text

def replaceCARD (text : String) : Option String := replaceDefault text

def replaceVEHICLE (text : String) : Option String := replaceDefault text

/-- Tags for the callables stored in `replace_dict`; the dict maps each
label string to a bound method, modelled by a tag interpreted by
`runStrat`. -/
inductive StratId where
  | per | loc | date | zipCode | idDoc | financial | vehicle | card
  | other | sensitive
  deriving Repr, DecidableEq

/-- Embeds `self.replace_dict` as built in `AllAnonym.__init__`
(`anonymize.py` 106–117), in source order. -/
def replaceDict : List (String × StratId) :=
  [("PER", .per), ("LOC", .loc), ("DATE", .date), ("ZIP", .zipCode),
   ("ID", .idDoc), ("FINANCIAL", .financial), ("VEHICLE", .vehicle),
   ("CARD", .card), ("OTHER", .other), ("SENSITIVE", .sensitive)]

/-- Interpretation of a registry entry as the strategy it stores. -/
def runStrat : StratId → AllAnonymEnv → (Nat → Nat) → String → Option String
  | .per, env, rng, text => replacePER env rng text
  | .loc, env, rng, text => replaceLOC env rng text
  | .date, _, _, text => replaceDATE text
  | .zipCode, _, _, text => replaceZIP text
  | .idDoc, _, _, text => replaceID text
  | .financial, _, _, text => replaceFINANCIAL text
  | .vehicle, _, _, text => replaceVEHICLE text
  | .card, _, _, text => replaceCARD text
  | .other, _, _, text => replaceDefault text
  | .sensitive, _, _, text => replaceDelete text

/-- Embeds `AllAnonym.anonymize` (`anonymize.py` 119–126): take the spanned
substring, dispatch on the label (falling back to `_replaceDefault` for
labels outside the dict), and return the copied span with
`end = start + len(new_text)` together with the substitution text.  The
whole call is `none` exactly when the selected strategy fails. -/
def anonymize (env : AllAnonymEnv) (rng : Nat → Nat) (span : Span)
    (text : String) : Option (Span × String) :=
  let oldText := pySliceGet text span.start span.stop
  let newText? :=
    match replaceDict.lookup span.label with
    | none => replaceDefault oldText
    | some strat => runStrat strat env rng oldText
  newText?.map (fun newText =>
    ({ span with stop := span.start + (newText.length : Int) }, newText))

end AllAnonym

/-! ## Spec-side formulations and concrete instances used by the claims -/

/-- One iteration of the driver as worded by the specification (§4.1):
shift the span by the cumulative offset, invoke the strategy, splice the
returned text over the shifted range, grow the offset by
`newSpan.end - span.end`, append `newSpan`. -/
def anonymizeSpansSpecStep (anonymizer : Span → String → Span × String)
    (st : Int × List Span × String) (span : Span) :
    Int × List Span × String :=
  let offset := st.1
  let shifted : Span := ⟨span.start + offset, span.stop + offset, span.label⟩
  let res := anonymizer shifted st.2.2
  (offset + (res.1.stop - shifted.stop), st.2.1 ++ [res.1],
   pyTake st.2.2 shifted.start ++ res.2 ++ pyDropFrom st.2.2 shifted.stop)

/-- The driver as worded by the specification: a left fold of
`anonymizeSpansSpecStep` starting from offset `0`. -/
def anonymizeSpansSpec (anonymizer : Span → String → Span × String)
    (spans : List Span) (text : String) : List Span × String :=
  let r := spans.foldl (anonymizeSpansSpecStep anonymizer) (0, [], text)
  (r.2.1, r.2.2)

/-- Follows the specification words (§3): a span is inside the document
when `0 <= start <= end <= len(document)`. -/
def specSpanInBounds (docLen : Nat) (span : Span) : Bool :=
  decide (0 ≤ span.start) && decide (span.start ≤ span.stop) &&
    decide (span.stop ≤ (docLen : Int))

/-- The per-character claim of the shuffler: a digit goes to a digit, a
letter to a letter of the same case, anything else is unchanged. -/
def shuffleRelB (a b : Char) : Bool :=
  if a.isDigit then b.isDigit
  else if a.isAlpha then
    if a.isUpper then b.isAlpha && b.isUpper
    else b.isAlpha && b.isLower
  else a == b

/-- A deterministic instance of the injected random stream. -/
def rngZero : Nat → Nat := fun _ => 0

/-- A tiny gazetteer environment used to instantiate theorems with
hypotheses on concrete inputs. -/
def demoEnv : AllAnonymEnv :=
  { nameList := ["maria"], surnameList := ["garcia"],
    nomenclator := [⟨"carrer", "de", "Mallorca"⟩, ⟨"jardí", "del", "Túria"⟩],
    barrios := ["Gràcia"] }

/-- A strategy obeying the replacement contract that rewrites the span
starting at 0 with six characters and any other span with two; it
instantiates the length/offset law of the specification. -/
def demoStrategy : Span → String → Span × String := fun span _ =>
  let newText := if span.start = 0 then "XXXXXX" else "YY"
  ({ span with stop := span.start + (newText.length : Int) }, newText)

/-- A strategy that deletes every span (the SENSITIVE behaviour),
obeying the replacement contract. -/
def deleteStrategy : Span → String → Span × String := fun span _ =>
  ({ span with stop := span.start }, "")

/-- Follows the specification words (§3): spans sorted by `start` and
pairwise non-overlapping, i.e. each span ends no later than the next
begins. -/
def specSpansSorted : List Span → Bool
  | [] => true
  | [_] => true
  | a :: b :: rest => decide (a.stop ≤ b.start) && specSpansSorted (b :: rest)

/-! ## Helper lemmas -/

lemma listGetD_mem {α : Type} (l : List α) (k : Nat) (d : α)
    (h : k < l.length) : listGetD l k d ∈ l := by
  induction l generalizing k with
  | nil => exact absurd h (by simp)
  | cons a as ih =>
    cases k with
    | zero => simp [listGetD]
    | succ n =>
      have hn : n < as.length := Nat.lt_of_succ_lt_succ (by simpa using h)
      have h2 := ih n hn
      simp only [listGetD] at h2 ⊢
      rw [List.getD_cons_succ]
      exact List.mem_cons_of_mem _ h2

lemma shuffleChar_rel (r : Nat) (c : Char) :
    shuffleRelB c (shuffleChar r c) = true := by
  have hnum : ∀ x ∈ numbers.data, x.isDigit = true := by decide
  have hupp : ∀ x ∈ uppers.data, (x.isAlpha && x.isUpper) = true := by decide
  have hlow : ∀ x ∈ lowers.data, (x.isAlpha && x.isLower) = true := by decide
  by_cases hd : c.isDigit
  · have hlt : r % numbers.length < numbers.data.length :=
      Nat.mod_lt _ (by decide)
    simp only [shuffleRelB, shuffleChar, hd, if_true]
    exact hnum _ (listGetD_mem _ _ _ hlt)
  · by_cases ha : c.isAlpha
    · by_cases hu : c.isUpper
      · have hlt : r % uppers.length < uppers.data.length :=
          Nat.mod_lt _ (by decide)
        simp only [shuffleRelB, shuffleChar, hd, ha, hu, if_true, if_false,
          Bool.false_eq_true]
        exact hupp _ (listGetD_mem _ _ _ hlt)
      · have hlt : r % lowers.length < lowers.data.length :=
          Nat.mod_lt _ (by decide)
        simp only [shuffleRelB, shuffleChar, hd, ha, hu, if_true, if_false,
          Bool.false_eq_true]
        exact hlow _ (listGetD_mem _ _ _ hlt)
    · simp [shuffleRelB, shuffleChar, hd, ha]

lemma shuffleChars_length (rng : Nat → Nat) :
    ∀ (i : Nat) (l : List Char), (shuffleChars rng i l).length = l.length := by
  intro i l
  induction l generalizing i with
  | nil => rfl
  | cons c cs ih => simp [shuffleChars, ih]

lemma shuffleChars_rel (rng : Nat → Nat) :
    ∀ (i : Nat) (l : List Char),
      List.Forall₂ (fun a b => shuffleRelB a b = true) l (shuffleChars rng i l) := by
  intro i l
  induction l generalizing i with
  | nil => exact List.Forall₂.nil
  | cons c cs ih => exact List.Forall₂.cons (shuffleChar_rel _ _) (ih _)

lemma foldl_spec_step_eq (A : Span → String → Span × String) :
    ∀ (spans : List Span) (offset : Int) (acc : List Span) (text : String),
      (spans.foldl (anonymizeSpansSpecStep A) (offset, acc, text)).2
        = (acc ++ (anonymizeSpansAux A offset spans text).1,
           (anonymizeSpansAux A offset spans text).2) := by
  intro spans
  induction spans with
  | nil => intro offset acc text; simp [anonymizeSpansAux]
  | cons s rest ih =>
    intro offset acc text
    simp only [List.foldl_cons, anonymizeSpansAux, anonymizeSpansSpecStep]
    rw [ih]
    simp

/-! ## Claim theorems -/

/-- C1: `anonymizeSpans` processes the spans in input order keeping a
cumulative offset initialised to 0 — each span is shifted by the current
offset, the strategy text is spliced over the shifted range, and the
offset grows by `newSpan.end` minus the shifted end — i.e. it agrees with
the step-by-step formulation `anonymizeSpansSpec` of the specification on
every strategy, span list and document; in particular, for spans `[0,4)`
and `[10,14)` replaced with 6- and 2-character outputs, the second
returned span starts at 12. -/
theorem driver_offset_algorithm :
    (∀ (A : Span → String → Span × String) (spans : List Span) (text : String),
        anonymizeSpans A spans text = anonymizeSpansSpec A spans text)
    ∧ (anonymizeSpans demoStrategy [⟨0, 4, "L"⟩, ⟨10, 14, "L"⟩]
          "aaaabbbbbbcccc").1
        = [⟨0, 6, "L"⟩, ⟨12, 14, "L"⟩] := by
  constructor
  · intro A spans text
    have h := foldl_spec_step_eq A spans 0 [] text
    simp only [anonymizeSpans, anonymizeSpansSpec]
    rw [h]
    simp
  · decide

/-- C2 counterexample: for span `[1,3)` of `"a-b-c"`,
`SimpleAnonym.anonymize` returns the whole rewritten 5-character document
as `newText` (not the 2-character substitution) and an unchanged span, so
`newSpan.end ≠ newSpan.start + len(newText)`. -/
theorem replacement_result_simple_cex :
    (SimpleAnonym.anonymize rngZero ⟨1, 3, "X"⟩ "a-b-c").2 = "a-a-c"
    ∧ ("a-a-c" : String).length ≠ (pySliceGet "a-b-c" 1 3).length
    ∧ ¬ ((SimpleAnonym.anonymize rngZero ⟨1, 3, "X"⟩ "a-b-c").1.stop
          = (SimpleAnonym.anonymize rngZero ⟨1, 3, "X"⟩ "a-b-c").1.start
            + ((SimpleAnonym.anonymize rngZero ⟨1, 3, "X"⟩ "a-b-c").2.length : Int)) := by
  decide

/-- C2 amended: the replacement-result contract — `newText` the literal
substitution, `newSpan.start` the input start and
`newSpan.end = newSpan.start + len(newText)` — holds for
`AllAnonym.anonymize` whenever it returns; `SimpleAnonym.anonymize`
instead returns the input span unchanged (and the whole rewritten
document as its text). -/
theorem replacement_result_contract :
    (∀ (env : AllAnonymEnv) (rng : Nat → Nat) (span : Span) (text : String)
        (ns : Span) (nt : String),
        AllAnonym.anonymize env rng span text = some (ns, nt) →
        ns.start = span.start ∧ ns.stop = ns.start + (nt.length : Int))
    ∧ (∀ (rng : Nat → Nat) (span : Span) (text : String),
        (SimpleAnonym.anonymize rng span text).1 = span) := by
  constructor
  · intro env rng span text ns nt h
    simp only [AllAnonym.anonymize] at h
    rcases Option.map_eq_some'.mp h with ⟨nt0, _hx, heq⟩
    rw [Prod.mk.injEq] at heq
    rcases heq with ⟨h1, h2⟩
    subst h1
    subst h2
    exact ⟨rfl, rfl⟩
  · intro rng span text
    rfl

/-- Witness for C2: the contract instantiated on a SENSITIVE span. -/
theorem replacement_result_contract_witness :
    (⟨0, 0, "SENSITIVE"⟩ : Span).start = (⟨0, 3, "SENSITIVE"⟩ : Span).start
    ∧ (⟨0, 0, "SENSITIVE"⟩ : Span).stop
        = (⟨0, 0, "SENSITIVE"⟩ : Span).start + (("" : String).length : Int) :=
  replacement_result_contract.1 demoEnv rngZero ⟨0, 3, "SENSITIVE"⟩ "abc"
    ⟨0, 0, "SENSITIVE"⟩ "" (by decide)

/-- C3 counterexample: the span `[0,100)` is out of bounds for the
3-character document `"abc"`, yet `anonymizeSpans` does not reject it —
it silently splices with clamping slice semantics and returns a
result. -/
theorem driver_no_fail_fast_cex :
    specSpanInBounds ("abc" : String).length ⟨0, 100, "X"⟩ = false
    ∧ anonymizeSpans deleteStrategy [⟨0, 100, "X"⟩] "abc"
        = ([⟨0, 0, "X"⟩], "") := by
  decide

/-- C3 amended: `anonymizeSpans` performs no validation at all — for
out-of-bounds spans (see the counterexample) and equally for unsorted or
overlapping spans it still returns a spliced result, the slice
expressions clamping out-of-range coordinates Python-style. -/
theorem driver_no_fail_fast :
    specSpansSorted [⟨2, 3, "X"⟩, ⟨0, 1, "Y"⟩] = false
    ∧ anonymizeSpans deleteStrategy [⟨2, 3, "X"⟩, ⟨0, 1, "Y"⟩] "abcde"
        = ([⟨2, 2, "X"⟩, ⟨-1, -1, "Y"⟩], "abdabde") := by
  decide

/-- C4: a span whose label is outside the registry is routed to
`_replaceDefault`, the same function the label `OTHER` is mapped to —
but `_replaceDefault` is an unimplemented `pass` stub returning `None`,
so `AllAnonym.anonymize` crashes at `len(new_text)` (modelled `none`)
instead of producing a well-formed result, for the unknown label and for
`OTHER` alike. -/
theorem registry_fallback_crash :
    AllAnonym.replaceDict.lookup "FOO" = none
    ∧ AllAnonym.replaceDefault "abc" = none
    ∧ AllAnonym.anonymize demoEnv rngZero ⟨0, 3, "FOO"⟩ "abc" = none
    ∧ AllAnonym.anonymize demoEnv rngZero ⟨0, 3, "OTHER"⟩ "abc" = none := by
  decide

/-- C5 counterexample: the registry keys are the short labels — neither
`PERSON` nor `LOCATION` is a key of `replace_dict`. -/
theorem registry_keys_cex :
    AllAnonym.replaceDict.lookup "PERSON" = none
    ∧ AllAnonym.replaceDict.lookup "LOCATION" = none := by
  decide

/-- C5 amended: the registry built in the constructor is the fixed
association list with keys PER, LOC, DATE, ZIP, ID, FINANCIAL, VEHICLE,
CARD, OTHER, SENSITIVE, mapping PER to the person strategy, LOC to the
location strategy, OTHER to the default stub and SENSITIVE to delete. -/
theorem registry_contents :
    AllAnonym.replaceDict.map Prod.fst
        = ["PER", "LOC", "DATE", "ZIP", "ID", "FINANCIAL", "VEHICLE",
           "CARD", "OTHER", "SENSITIVE"]
    ∧ AllAnonym.replaceDict.lookup "PER" = some AllAnonym.StratId.per
    ∧ AllAnonym.replaceDict.lookup "LOC" = some AllAnonym.StratId.loc
    ∧ AllAnonym.replaceDict.lookup "OTHER" = some AllAnonym.StratId.other
    ∧ AllAnonym.replaceDict.lookup "SENSITIVE"
        = some AllAnonym.StratId.sensitive
    ∧ (∀ (env : AllAnonymEnv) (rng : Nat → Nat) (text : String),
        AllAnonym.runStrat AllAnonym.StratId.per env rng text
            = AllAnonym.replacePER env rng text
        ∧ AllAnonym.runStrat AllAnonym.StratId.loc env rng text
            = AllAnonym.replaceLOC env rng text
        ∧ AllAnonym.runStrat AllAnonym.StratId.other env rng text
            = AllAnonym.replaceDefault text
        ∧ AllAnonym.runStrat AllAnonym.StratId.sensitive env rng text
            = AllAnonym.replaceDelete text) := by
  refine ⟨by decide, by decide, by decide, by decide, by decide, ?_⟩
  intro env rng text
  exact ⟨rfl, rfl, rfl, rfl⟩

/-- C6: the character-class shuffler (`SimpleAnonym.anonymize`, and the
identical module-level `anonymize`) splices into the document a
replacement of exactly the length of the spanned substring in which
every digit maps to a digit, every letter to a letter of the same case,
and every other character is unchanged. -/
theorem shuffler_character_class_law :
    ∀ (rng : Nat → Nat) (span : Span) (text : String),
      (SimpleAnonym.anonymize rng span text).2
          = pyTake text span.start
            ++ String.mk (shuffleChars rng 0
                (pySliceGet text span.start span.stop).data)
            ++ pyDropFrom text span.stop
      ∧ anonymizeFree rng span text = SimpleAnonym.anonymize rng span text
      ∧ (shuffleChars rng 0 (pySliceGet text span.start span.stop).data).length
          = (pySliceGet text span.start span.stop).data.length
      ∧ List.Forall₂ (fun a b => shuffleRelB a b = true)
          (pySliceGet text span.start span.stop).data
          (shuffleChars rng 0 (pySliceGet text span.start span.stop).data) := by
  intro rng span text
  exact ⟨rfl, rfl, shuffleChars_length rng 0 _, shuffleChars_rel rng 0 _⟩

/-- C7 counterexample: for the single-token text `" JOHN"` (leading
whitespace) with name list `["maria"]`, `_replacePER` returns
`"maria"` unformatted, because the casing is taken from the full text
(whose first character is a space), while formatting with the casing of
the token `"JOHN"` would give `"MARIA"`. -/
theorem person_single_token_cex :
    pySplit " JOHN" = ["JOHN"]
    ∧ AllAnonym.replacePER demoEnv rngZero " JOHN" = some "maria"
    ∧ AllAnonym.formatString "JOHN" "maria" = some "MARIA"
    ∧ (some "maria" : Option String) ≠ some "MARIA" := by
  decide

/-- C7 amended: a single token yields one sampled given name formatted
with the casing of the *full original text* (which coincides with the
token only when the text carries no surrounding whitespace); two or more
tokens yield a sampled name formatted by token 1 and a sampled surname
formatted by token 2 joined by one space, tokens beyond the second
having no influence. -/
theorem person_strategy_tokens :
    ∀ (env : AllAnonymEnv) (rng : Nat → Nat) (text w0 w1 : String)
      (rest : List String),
      (pySplit text = [w0] →
        AllAnonym.replacePER env rng text
          = AllAnonym.generateName env (rng 0) text)
      ∧ (pySplit text = w0 :: w1 :: rest →
        AllAnonym.replacePER env rng text
          = (AllAnonym.generateName env (rng 0) w0).bind (fun name =>
              (AllAnonym.generateSurname env (rng 1) w1).bind (fun surname =>
                some (name ++ " " ++ surname)))) := by
  intro env rng text w0 w1 rest
  constructor
  · intro h
    simp [AllAnonym.replacePER, h]
  · intro h
    simp [AllAnonym.replacePER, h, pyGet]

/-- Witness for C7: the two-token branch on `"Joan Pere Marc"`. -/
theorem person_strategy_tokens_witness :
    AllAnonym.replacePER demoEnv rngZero "Joan Pere Marc"
      = (AllAnonym.generateName demoEnv (rngZero 0) "Joan").bind (fun name =>
          (AllAnonym.generateSurname demoEnv (rngZero 1) "Pere").bind
            (fun surname => some (name ++ " " ++ surname))) :=
  (person_strategy_tokens demoEnv rngZero "Joan Pere Marc" "Joan" "Pere"
    ["Marc"]).2 (by decide)

/-- C8: whenever the lower-cased text contains a digit and the street
table is non-empty, `_replaceLOC` takes the full-street-address branch
regardless of any other keyword: one street record is sampled and the
result is `"{wayType} {particle} {name} {n}"` when a descriptor keyword
(carrer, calle, vía, via, carrero, carreró) occurs, `"{name} {n}"`
otherwise, with `n` between 1 and 100. -/
theorem loc_digit_branch :
    ∀ (env : AllAnonymEnv) (rng : Nat → Nat) (text : String)
      (sel : StreetRow),
      (pyLower text).data.any Char.isDigit = true →
      pySampleOne (AllAnonym.streetsOf env) (rng 0) = some sel →
      AllAnonym.replaceLOC env rng text
          = some (if AllAnonym.locDescriptors.any
                      (fun x => strHasSub (pyLower text) x) then
                    AllAnonym.mkStreetAddr sel ++ " "
                      ++ toString (pyRandint (rng 1) 1 100)
                  else sel.nom ++ " " ++ toString (pyRandint (rng 1) 1 100))
      ∧ sel ∈ AllAnonym.streetsOf env
      ∧ 1 ≤ pyRandint (rng 1) 1 100 ∧ pyRandint (rng 1) 1 100 ≤ 100 := by
  intro env rng text sel hdig hsel
  refine ⟨?_, ?_, ?_, ?_⟩
  · simp only [AllAnonym.replaceLOC, hdig, if_true, hsel]
    split <;> simp [*]
  · unfold pySampleOne pyChoose at hsel
    exact List.get?_mem hsel
  · simp [pyRandint]
  · have h : rng 1 % 100 < 100 := Nat.mod_lt _ (by norm_num)
    simp only [pyRandint]
    omega

/-- Witness for C8: the descriptor instance `"Carrer Gran 45"` on the
demo gazetteer. -/
theorem loc_digit_branch_witness :
    AllAnonym.replaceLOC demoEnv rngZero "Carrer Gran 45"
        = some (if AllAnonym.locDescriptors.any
                    (fun x => strHasSub (pyLower "Carrer Gran 45") x) then
                  AllAnonym.mkStreetAddr ⟨"carrer", "de", "Mallorca"⟩ ++ " "
                    ++ toString (pyRandint (rngZero 1) 1 100)
                else (⟨"carrer", "de", "Mallorca"⟩ : StreetRow).nom ++ " "
                    ++ toString (pyRandint (rngZero 1) 1 100))
    ∧ (⟨"carrer", "de", "Mallorca"⟩ : StreetRow) ∈ AllAnonym.streetsOf demoEnv
    ∧ 1 ≤ pyRandint (rngZero 1) 1 100
    ∧ pyRandint (rngZero 1) 1 100 ≤ 100 :=
  loc_digit_branch demoEnv rngZero "Carrer Gran 45"
    ⟨"carrer", "de", "Mallorca"⟩ (by decide) (by decide)

/-- C9: `_format_string` on a single-character token does *not* guard
the second-character inspection: an uppercase single character reaches
`text[1]` and raises `IndexError` (modelled `none`) instead of returning
the capitalized replacement; a lowercase single character returns the
replacement unchanged, and two-character tokens behave per the casing
rule. -/
theorem casing_single_char_crash :
    AllAnonym.formatString "A" "maria" = none
    ∧ AllAnonym.formatString "a" "maria" = some "maria"
    ∧ AllAnonym.formatString "Ab" "maria" = some "Maria"
    ∧ AllAnonym.formatString "AB" "maria" = some "MARIA" := by
  decide

/-- C10: the span returned by an anonymizer carries the label and start
of its input span — for `AllAnonym.anonymize` whenever it returns, and
for `SimpleAnonym.anonymize` always (there even the end is unchanged). -/
theorem newspan_preserves_label_start :
    (∀ (env : AllAnonymEnv) (rng : Nat → Nat) (span : Span) (text : String)
        (ns : Span) (nt : String),
        AllAnonym.anonymize env rng span text = some (ns, nt) →
        ns.label = span.label ∧ ns.start = span.start)
    ∧ (∀ (rng : Nat → Nat) (span : Span) (text : String),
        (SimpleAnonym.anonymize rng span text).1.label = span.label
        ∧ (SimpleAnonym.anonymize rng span text).1.start = span.start) := by
  constructor
  · intro env rng span text ns nt h
    simp only [AllAnonym.anonymize] at h
    rcases Option.map_eq_some'.mp h with ⟨nt0, _hx, heq⟩
    rw [Prod.mk.injEq] at heq
    rcases heq with ⟨h1, h2⟩
    subst h1
    exact ⟨rfl, rfl⟩
  · intro rng span text
    exact ⟨rfl, rfl⟩

/-- Witness for C10: instantiated on a SENSITIVE span of `"abcd"`. -/
theorem newspan_preserves_label_start_witness :
    (⟨1, 1, "SENSITIVE"⟩ : Span).label = (⟨1, 3, "SENSITIVE"⟩ : Span).label
    ∧ (⟨1, 1, "SENSITIVE"⟩ : Span).start = (⟨1, 3, "SENSITIVE"⟩ : Span).start :=
  newspan_preserves_label_start.1 demoEnv rngZero ⟨1, 3, "SENSITIVE"⟩ "abcd"
    ⟨1, 1, "SENSITIVE"⟩ "" (by decide)
